import Mathlib

/-!
Verification of the agent-hackathon repository's orchestration core.

The development shallowly embeds the Python code of
`backend/agents/gmail.py` (email-draft parsing and email-type inference),
`backend/utils/composio_adapters.py` (the HubSpot MCP adapter with its
live/mock two-state behaviour), `backend/agents/hubspot_composio.py`
(the CRM agent layer) and `backend/agents/base.py` (the uniform error
boundary) as executable Lean functions, and proves the specified
properties about them.

Strings are modelled as `List Char` (Python `len` counts code points, as
`List.length` does); Python dictionaries appearing in results are
modelled as association lists where the first binding of a key wins.
-/

namespace AgentSpec

/-! ## Python string primitives -/

/-- The whitespace characters removed by Python `str.strip()`
(restricted to ASCII: space, tab, newline, carriage return, vertical
tab, form feed; the inputs in this repository are ASCII). -/
def pyIsSpace (c : Char) : Bool :=
  c = ' ' || c = '\t' || c = '\n' || c = '\r' || c = '\x0b' || c = '\x0c'

/-- Python `str.lstrip()`. -/
def pyStripLeft (l : List Char) : List Char := l.dropWhile pyIsSpace

/-- Python `str.rstrip()`. -/
def pyStripRight (l : List Char) : List Char := (l.reverse.dropWhile pyIsSpace).reverse

/-- Python `str.strip()`. -/
def pyStrip (l : List Char) : List Char := pyStripRight (pyStripLeft l)

/-- `str.strip()` at `String` level. -/
def pyStripS (s : String) : String := (pyStrip s.data).asString

/-- ASCII case of Python `str.upper()`, one character. -/
def asciiUpper (c : Char) : Char :=
  if 97 ≤ c.toNat ∧ c.toNat ≤ 122 then Char.ofNat (c.toNat - 32) else c

/-- ASCII case of Python `str.lower()`, one character. -/
def asciiLower (c : Char) : Char :=
  if 65 ≤ c.toNat ∧ c.toNat ≤ 90 then Char.ofNat (c.toNat + 32) else c

/-- Python `str.upper()` (ASCII). -/
def pyUpper (l : List Char) : List Char := l.map asciiUpper

/-- Python `str.lower()` (ASCII). -/
def pyLower (l : List Char) : List Char := l.map asciiLower

/-- `str.lower()` at `String` level. -/
def pyLowerS (s : String) : String := (pyLower s.data).asString

/-- Python `str.split('\n')`: splits on every newline and keeps empty
pieces, so the result is never the empty list (`"".split('\n') == ['']`). -/
def splitLines : List Char → List (List Char)
  | [] => [[]]
  | c :: cs =>
    let r := splitLines cs
    if c = '\n' then [] :: r
    else (c :: r.headD []) :: r.tail

/-- Python substring test `needle in hay`. -/
def pyContains : List Char → List Char → Bool
  | [], needle => needle.isPrefixOf []
  | hay@(_ :: t), needle => needle.isPrefixOf hay || pyContains t needle

/-- The text after the first colon: Python `line.split(":", 1)[1]`.  The
parser only evaluates this under a guard guaranteeing a colon is present
(Python would raise `IndexError` otherwise); on colon-free input we
return `[]`. -/
def pyAfterColon : List Char → List Char
  | [] => []
  | c :: t => if c = ':' then t else pyAfterColon t

/-! ## `GmailAgent._parse_email_response` (backend/agents/gmail.py) -/

/-- Loop state of `_parse_email_response`: the `subject`, `body_lines`
and `in_body` locals. -/
structure ParseSt where
  subject : List Char
  bodyLines : List (List Char)
  inBody : Bool
deriving Repr, DecidableEq

/-- One iteration of the `for line in lines` loop of
`_parse_email_response`. -/
def parseStep (st : ParseSt) (line : List Char) : ParseSt :=
  let ls := pyStrip line
  if "SUBJECT:".data.isPrefixOf (pyUpper ls) then
    { st with subject := pyStrip (pyAfterColon ls) }
  else if "BODY:".data.isPrefixOf (pyUpper ls) then
    { st with inBody := true }
  else if st.inBody then
    { st with bodyLines := st.bodyLines ++ [line] }
  else if st.subject.isEmpty && !st.inBody && decide (ls.length < 100) && !ls.isEmpty then
    if ls.length ≤ 80 then { st with subject := ls, inBody := true }
    else { st with bodyLines := st.bodyLines ++ [line], inBody := true }
  else
    { st with bodyLines := st.bodyLines ++ [line], inBody := true }

/-- `GmailAgent._parse_email_response`, on character lists.  Returns the
`(subject, body)` pair. -/
def parseEmailL (response : List Char) : List Char × List Char :=
  let stripped := pyStrip response
  let lines := splitLines stripped
  let st := lines.foldl parseStep ⟨[], [], false⟩
  let body0 := pyStrip (List.intercalate ['\n'] st.bodyLines)
  let p :=
    if st.subject.isEmpty then
      let firstLine := if stripped.isEmpty then [] else (splitLines stripped).headD []
      if firstLine.length ≤ 100 then
        (firstLine, pyStrip (List.intercalate ['\n'] (splitLines stripped).tail))
      else ("Following up".data, body0)
    else (st.subject, body0)
  let body2 := if p.2.isEmpty then stripped else p.2
  (p.1, body2)

/-- `GmailAgent._parse_email_response` at `String` level. -/
def parseEmailResponse (response : String) : String × String :=
  let p := parseEmailL response.data
  (p.1.asString, p.2.asString)

/-- A line that triggers one of the two explicit tag branches of the
parser loop (`SUBJECT:` or `BODY:`, case-insensitively). -/
def isTagLine (l : List Char) : Bool :=
  "SUBJECT:".data.isPrefixOf (pyUpper (pyStrip l)) ||
    "BODY:".data.isPrefixOf (pyUpper (pyStrip l))

/-! ## `GmailAgent._infer_email_type` (backend/agents/gmail.py) -/

/-- Lookup in a Python dictionary modelled as an association list (the
first binding of a key wins). -/
def dictGet {α : Type} (d : List (String × α)) (k : String) : Option α :=
  (d.find? (fun kv => kv.1 == k)).map (fun kv => kv.2)

/-- Python `any(word in intent_lower for word in ws)`. -/
def anyKeyword (il : List Char) (ws : List String) : Bool :=
  ws.any (fun w => pyContains il w.data)

/-- `GmailAgent._infer_email_type`.  `crm` models the optional
`crm_context` dictionary; only its `deal_stage` entry is read (an absent
key reads as `""` via `dict.get("deal_stage", "")`, and an empty
dictionary is falsy, like `None`). -/
def infer_email_type (intent : String) (crm : Option (List (String × String))) : String :=
  let il := pyLower intent.data
  if anyKeyword il ["initial", "first", "outreach", "cold", "introduction"] then
    "initial_outreach"
  else if anyKeyword il ["demo", "demonstration"] then
    if anyKeyword il ["scheduled", "upcoming", "pre-", "before"] then "demo_scheduled"
    else if anyKeyword il ["after", "post", "following"] then "post_demo"
    else "post_demo"
  else if anyKeyword il ["follow", "follow-up", "followup", "checking in"] then "follow_up"
  else if anyKeyword il ["close", "closing", "final", "decision"] then "closing"
  else
    match crm with
    | some d =>
      if d.isEmpty then "follow_up"
      else
        let ds := pyLower ((dictGet d "deal_stage").getD "").data
        if pyContains ds "demo".data && pyContains ds "scheduled".data then "demo_scheduled"
        else if pyContains ds "demo".data then "post_demo"
        else if ["qualified", "lead"].any (fun stage => pyContains ds stage.data) then "follow_up"
        else if pyContains ds "closing".data || pyContains ds "negotiation".data then "closing"
        else "follow_up"
    | none => "follow_up"

/-! ## Shared error types (backend/agents/base.py) -/

/-- A raised Python exception, abstracted to its message (`str(e)`) and
its type name (`type(e).__name__`). -/
structure PyExc where
  message : String
  typeName : String
deriving Repr, DecidableEq

/-- A CRM record / Python dictionary of string fields. -/
abbrev CrmRec := List (String × String)

/-! ## `HubSpotMCP` adapter (backend/utils/composio_adapters.py) -/

namespace HubSpotMCP

/-- The adapter instance state: `self.use_mock` and the tool names of
`self.hubspot_tools` (the `self.toolset` handle carries no further
observable state and is `None` exactly when the tool list is empty). -/
structure State where
  use_mock : Bool
  hubspot_tools : List String
deriving Repr, DecidableEq

/-- The opaque Composio gateway used by live mode, modelled as the
responses the remote `ainvoke` calls would produce (or the exception
they would raise). -/
structure LiveWorld where
  search_companies : String → Except PyExc (List CrmRec)
  create_company_invoke : List (String × Option String) → Except PyExc (Option CrmRec)
  create_contact_invoke : List (String × Option String) → Except PyExc (Option CrmRec)
  create_note_invoke : String → String → String → Except PyExc Unit

/-- `HubSpotMCP.__init__`.  `env_use_mock_mcp` is the value of
`os.getenv("USE_MOCK_MCP", "false")`; `live_init` is the combined
outcome of `ComposioToolSet()` and `get_tools(...)` inside the `try`
block (the tool names on success, the raised exception on failure). -/
def init (use_mock : Bool) (env_use_mock_mcp : String)
    (live_init : Except PyExc (List String)) : State :=
  let um := use_mock || (pyLowerS env_use_mock_mcp == "true")
  if um then ⟨true, []⟩
  else
    match live_init with
    | .ok tools => ⟨false, tools⟩
    | .error _ => ⟨true, []⟩

/-- `HubSpotMCP._get_action`: returns the first tool whose name matches
the requested action, `None` when the tool list is empty or nothing
matches. -/
def get_action (st : State) (action : String) : Option String :=
  if st.hubspot_tools.isEmpty then none
  else st.hubspot_tools.find? (fun t => t == action)

/-- The `Stripe` fixture of `_mock_search_company`. -/
def stripe_record : CrmRec :=
  [("id", "mock-stripe-001"), ("name", "Stripe"), ("domain", "stripe.com"),
   ("industry", "Financial Services"), ("description", "Online payment processing"),
   ("url", "https://app.hubspot.com/contacts/mock/company/mock-stripe-001")]

/-- The `Notion` fixture of `_mock_search_company`. -/
def notion_record : CrmRec :=
  [("id", "mock-notion-001"), ("name", "Notion"), ("domain", "notion.so"),
   ("industry", "Software"), ("description", "Productivity and collaboration software"),
   ("url", "https://app.hubspot.com/contacts/mock/company/mock-notion-001")]

/-- `HubSpotMCP._mock_search_company`: a lookup of the stripped name in
the literal two-entry fixture dictionary. -/
def mock_search_company (company_name : String) : Option CrmRec :=
  if pyStripS company_name == "Stripe" then some stripe_record
  else if pyStripS company_name == "Notion" then some notion_record
  else none

/-- Python `str.replace(' ', '-')`. -/
def replaceSpaceDash (l : List Char) : List Char :=
  l.map (fun c => if c = ' ' then '-' else c)

/-- Python dict literal `{k1: v1, ..., **extra}`: keys of the literal
part keep their position but take `extra`'s value when `extra` also
binds them; `extra`'s remaining keys follow.  Lookups go through
`dictGet`, for which the first binding wins. -/
def mergeDict (base extra : CrmRec) : CrmRec :=
  base.map (fun kv => (kv.1, (dictGet extra kv.1).getD kv.2)) ++
    extra.filter (fun kv => (dictGet base kv.1).isNone)

/-- The mock company id
`f"mock-{company_name.lower().replace(' ', '-')}-{hash(company_name) % 1000}"`.
Python's built-in `hash` on strings is salted per process
(`PYTHONHASHSEED`), so it is passed in explicitly as `pyhash`; Python's
`%` on a positive modulus agrees with `Int.emod`. -/
def mock_company_id (pyhash : String → Int) (company_name : String) : String :=
  "mock-" ++ (replaceSpaceDash (pyLower company_name.data)).asString ++ "-" ++
    toString (pyhash company_name % 1000)

/-- `HubSpotMCP._mock_create_company`. -/
def mock_create_company (pyhash : String → Int) (company_data : CrmRec) : CrmRec :=
  let company_name := (dictGet company_data "name").getD "Unknown Company"
  let mock_id := mock_company_id pyhash company_name
  mergeDict
    [("id", mock_id), ("name", company_name),
     ("url", "https://app.hubspot.com/contacts/mock/company/" ++ mock_id)]
    company_data

/-- `HubSpotMCP._mock_create_contact`. -/
def mock_create_contact (pyhash : String → Int) (contact_data : CrmRec) : CrmRec :=
  let email := (dictGet contact_data "email").getD "unknown@example.com"
  let mock_id := "mock-contact-" ++ toString (pyhash email % 1000)
  mergeDict
    [("id", mock_id), ("url", "https://app.hubspot.com/contacts/mock/contact/" ++ mock_id)]
    contact_data

/-- `HubSpotMCP._mock_add_note`: logs and reports success whatever the
arguments are. -/
def mock_add_note (record_id note_text record_type : String) : Bool :=
  true

/-- The `properties` mapping built by the live branch of
`create_company` (`.get("name")` has no default and may be `None`; the
others default to `""`). -/
def company_properties (company_data : CrmRec) : List (String × Option String) :=
  [("name", dictGet company_data "name"),
   ("domain", some ((dictGet company_data "domain").getD "")),
   ("industry", some ((dictGet company_data "industry").getD "")),
   ("description", some ((dictGet company_data "description").getD "")),
   ("city", some ((dictGet company_data "city").getD "")),
   ("state", some ((dictGet company_data "state").getD "")),
   ("country", some ((dictGet company_data "country").getD ""))]

/-- The `properties` mapping built by the live branch of
`create_contact`. -/
def contact_properties (contact_data : CrmRec) : List (String × Option String) :=
  [("email", dictGet contact_data "email"),
   ("firstname", some ((dictGet contact_data "firstname").getD "")),
   ("lastname", some ((dictGet contact_data "lastname").getD "")),
   ("company", some ((dictGet contact_data "company").getD "")),
   ("jobtitle", some ((dictGet contact_data "jobtitle").getD "")),
   ("phone", some ((dictGet contact_data "phone").getD ""))]

/-- `HubSpotMCP.search_company`.  The state is threaded explicitly to
make it visible that no operation modifies it. -/
def search_company (w : LiveWorld) (st : State) (company_name : String) :
    Option CrmRec × State :=
  if st.use_mock then (mock_search_company company_name, st)
  else
    match get_action st "HUBSPOT_SEARCH_COMPANIES" with
    | none => (none, st)
    | some _ =>
      match w.search_companies company_name with
      | .ok results => (results.head?, st)
      | .error _ => (none, st)

/-- `HubSpotMCP.create_company`. -/
def create_company (w : LiveWorld) (pyhash : String → Int) (st : State)
    (company_data : CrmRec) : Option CrmRec × State :=
  if st.use_mock then (some (mock_create_company pyhash company_data), st)
  else
    match get_action st "HUBSPOT_CREATE_COMPANY" with
    | none => (none, st)
    | some _ =>
      match w.create_company_invoke (company_properties company_data) with
      | .ok r => (r, st)
      | .error _ => (none, st)

/-- `HubSpotMCP.create_contact`. -/
def create_contact (w : LiveWorld) (pyhash : String → Int) (st : State)
    (contact_data : CrmRec) : Option CrmRec × State :=
  if st.use_mock then (some (mock_create_contact pyhash contact_data), st)
  else
    match get_action st "HUBSPOT_CREATE_CONTACT" with
    | none => (none, st)
    | some _ =>
      match w.create_contact_invoke (contact_properties contact_data) with
      | .ok r => (r, st)
      | .error _ => (none, st)

/-- `HubSpotMCP.add_note`.  `record_type` is interpolated into the
association type; no validation happens in either mode. -/
def add_note (w : LiveWorld) (st : State) (record_id note_text record_type : String) :
    Bool × State :=
  if st.use_mock then (mock_add_note record_id note_text record_type, st)
  else
    match get_action st "HUBSPOT_CREATE_NOTE" with
    | none => (false, st)
    | some _ =>
      match w.create_note_invoke note_text record_id (record_type ++ "_to_note") with
      | .ok _ => (true, st)
      | .error _ => (false, st)

end HubSpotMCP

/-- A live world whose every remote call fails (an unreachable
gateway), used to instantiate theorems. -/
def unreachableWorld : HubSpotMCP.LiveWorld :=
  ⟨fun _ => .error ⟨"unreachable", "ConnectionError"⟩,
   fun _ => .error ⟨"unreachable", "ConnectionError"⟩,
   fun _ => .error ⟨"unreachable", "ConnectionError"⟩,
   fun _ _ _ => .error ⟨"unreachable", "ConnectionError"⟩⟩

/-- The state of an adapter running in mock mode. -/
def mockState : HubSpotMCP.State := ⟨true, []⟩

/-! ## Agent layer (backend/agents/base.py, backend/agents/hubspot_composio.py) -/

/-- A value in an agent result dictionary. -/
inductive AVal where
  | b : Bool → AVal
  | s : String → AVal
  | r : CrmRec → AVal
  | nil : AVal
deriving Repr, DecidableEq

/-- An agent result dictionary. -/
abbrev ARes := List (String × AVal)

/-- `BaseAgent.handle_error`: the uniform failure record built at every
agent boundary. -/
def handle_error (agent_name : String) (e : PyExc) : ARes :=
  [("success", .b false), ("error", .s e.message),
   ("error_type", .s e.typeName), ("agent", .s agent_name)]

/-- The `try/except` boundary wrapped around every agent operation
(e.g. `HubSpotComposioAgent.execute`): a normal result passes through, a
raised exception becomes `handle_error`'s record. -/
def agent_boundary (agent_name : String) (op : Except PyExc ARes) : ARes :=
  match op with
  | .ok res => res
  | .error e => handle_error agent_name e

/-- `self.name` of `HubSpotComposioAgent`. -/
def hubspot_agent_name : String := "HubSpot Composio Agent"

/-- The create-then-wrap tail of `HubSpotComposioAgent.create_company`
(the code after the existence check). -/
def agent_create_company_tail (w : HubSpotMCP.LiveWorld) (pyhash : String → Int)
    (st : HubSpotMCP.State) (company_data : CrmRec) (company_name : String) :
    ARes × HubSpotMCP.State :=
  let c := HubSpotMCP.create_company w pyhash st company_data
  match c.1 with
  | some result =>
    ([("success", .b true), ("created", .b true), ("exists", .b false),
      ("company", .r result),
      ("message", .s ("Successfully created company \x27" ++ company_name ++
        "\x27 in HubSpot")),
      ("agent", .s hubspot_agent_name)], c.2)
  | none =>
    ([("success", .b false), ("error", .s "Failed to create company in HubSpot"),
      ("agent", .s hubspot_agent_name)], c.2)

/-- `HubSpotComposioAgent.create_company` (the body inside its `try`;
its own operations cannot raise in this model, so the boundary is the
identity here). -/
def agent_create_company (w : HubSpotMCP.LiveWorld) (pyhash : String → Int)
    (st : HubSpotMCP.State) (company_data : CrmRec) (check_existing : Bool) :
    ARes × HubSpotMCP.State :=
  let nameOpt := dictGet company_data "name"
  if (nameOpt.getD "") == "" then
    ([("success", .b false), ("error", .s "Company name is required"),
      ("agent", .s hubspot_agent_name)], st)
  else
    let company_name := nameOpt.getD ""
    if check_existing then
      let s1 := HubSpotMCP.search_company w st company_name
      match s1.1 with
      | some existing =>
        ([("success", .b true), ("created", .b false), ("exists", .b true),
          ("company", .r existing),
          ("message", .s ("Company \x27" ++ company_name ++
            "\x27 already exists in HubSpot")),
          ("agent", .s hubspot_agent_name)], s1.2)
      | none => agent_create_company_tail w pyhash s1.2 company_data company_name
    else agent_create_company_tail w pyhash st company_data company_name

/-- `HubSpotComposioAgent.add_note`. -/
def agent_add_note (w : HubSpotMCP.LiveWorld) (st : HubSpotMCP.State)
    (record_id note_text record_type : String) : ARes × HubSpotMCP.State :=
  let p := HubSpotMCP.add_note w st record_id note_text record_type
  if p.1 then
    ([("success", .b true),
      ("message", .s ("Successfully added note to " ++ record_type)),
      ("agent", .s hubspot_agent_name)], p.2)
  else
    ([("success", .b false),
      ("error", .s ("Failed to add note to " ++ record_type)),
      ("agent", .s hubspot_agent_name)], p.2)

/-! ## Helper lemmas -/

theorem asString_eq_empty_iff (l : List Char) : l.asString = "" ↔ l = [] := by
  constructor
  · intro h
    have h2 := congrArg String.data h
    simpa [List.asString] using h2
  · intro h
    rw [h]
    rfl

theorem splitLines_ne_nil (l : List Char) : splitLines l ≠ [] := by
  induction l with
  | nil => simp [splitLines]
  | cons c cs ih =>
    simp only [splitLines]
    split
    · simp
    · simp

theorem dropWhile_head_false (p : Char → Bool) (l : List Char) (c : Char)
    (t : List Char) (h : l.dropWhile p = c :: t) : p c = false := by
  have h2 := List.head?_dropWhile_not p l
  rw [h] at h2
  simpa using h2

theorem pyStripRight_prefix_self (l : List Char) : pyStripRight l <+: l := by
  have h := (@List.dropWhile_suffix Char l.reverse pyIsSpace).reverse
  simpa [pyStripRight] using h

theorem pyStrip_head_not_space (l : List Char) (c : Char) (t : List Char)
    (h : pyStrip l = c :: t) : pyIsSpace c = false := by
  unfold pyStrip at h
  obtain ⟨r, hr⟩ := pyStripRight_prefix_self (pyStripLeft l)
  rw [h] at hr
  have h3 : l.dropWhile pyIsSpace = c :: (t ++ r) := by
    have h4 : pyStripLeft l = c :: (t ++ r) := by
      rw [← hr]
      simp
    simpa [pyStripLeft] using h4
  exact dropWhile_head_false pyIsSpace l c (t ++ r) h3

/-! ## Claim theorems -/

theorem ite_self_fallback_ne_nil (b : Prop) [Decidable b] (y X : List Char)
    (hy : y ≠ []) (hX : ¬b → X ≠ []) : (if b then y else X) ≠ [] := by
  split
  · exact hy
  · rename_i hb
    exact hX hb

theorem parseEmailL_nonempty (l : List Char) (h : pyStrip l ≠ []) :
    (parseEmailL l).1 ≠ [] ∧ (parseEmailL l).2 ≠ [] := by
  obtain ⟨c, t, hct⟩ : ∃ c t, pyStrip l = c :: t := by
    cases hl : pyStrip l with
    | nil => exact absurd hl h
    | cons c t => exact ⟨c, t, rfl⟩
  have hcs : pyIsSpace c = false := pyStrip_head_not_space l c t hct
  have hcn : ¬(c = '\n') := by
    intro hc
    rw [hc] at hcs
    simp [pyIsSpace] at hcs
  obtain ⟨r, rs, hsplit⟩ : ∃ r rs, splitLines (pyStrip l) = (c :: r) :: rs := by
    rw [hct]
    simp only [splitLines, if_neg hcn]
    exact ⟨(splitLines t).headD [], (splitLines t).tail, rfl⟩
  rw [hct] at hsplit
  simp only [parseEmailL, hct, hsplit]
  simp only [List.isEmpty_cons, Bool.false_eq_true, if_false, List.headD_cons,
    List.head?_cons, Option.getD_some, List.tail_cons]
  constructor
  · split
    · split <;> simp
    · rename_i hA
      simpa using hA
  · exact ite_self_fallback_ne_nil _ (c :: t) _ (by simp) (fun hb => by simpa using hb)

/-- Claim C1 counterexample: the draft parser on the empty string
returns an empty subject and an empty body, and on a 90-character
single-line input returns that whole line (longer than 80 characters)
as the subject, refuting both the non-emptiness and the 80-character
bound. -/
theorem C1_cex_empty_and_long :
    (parseEmailResponse "" = ("", "")) ∧
    (parseEmailResponse ((List.replicate 90 'x').asString)).1 =
      (List.replicate 90 'x').asString ∧
    80 < ((parseEmailResponse ((List.replicate 90 'x').asString)).1).length :=
  ⟨by decide, by decide, by decide⟩

/-- Claim C1 amended: the draft parser is a total function (it never
raises), and whenever the stripped input is non-empty it produces a
non-empty subject and a non-empty body; for whitespace-only input both
fields are empty, and the 80-character subject bound holds only on the
untagged first-line heuristic path, not in general. -/
theorem C1_amended_parse_nonempty (s : String) (h : pyStrip s.data ≠ []) :
    (parseEmailResponse s).1 ≠ "" ∧ (parseEmailResponse s).2 ≠ "" := by
  have hl := parseEmailL_nonempty s.data h
  constructor
  · intro he
    exact hl.1 ((asString_eq_empty_iff (parseEmailL s.data).1).mp he)
  · intro he
    exact hl.2 ((asString_eq_empty_iff (parseEmailL s.data).2).mp he)

theorem C1_witness :
    pyStrip ("x" : String).data ≠ [] ∧
    ((parseEmailResponse "x").1 ≠ "" ∧ (parseEmailResponse "x").2 ≠ "") :=
  ⟨by decide, C1_amended_parse_nonempty "x" (by decide)⟩

theorem parseStep_notag_inBody (st : ParseSt) (l : List Char)
    (htag : isTagLine l = false) (hin : st.inBody = true) :
    parseStep st l = ⟨st.subject, st.bodyLines ++ [l], true⟩ := by
  simp only [isTagLine, Bool.or_eq_false_iff] at htag
  simp [parseStep, htag.1, htag.2, hin]

theorem foldl_parseStep_inBody (lines : List (List Char)) (st : ParseSt)
    (hin : st.inBody = true) (htags : ∀ l ∈ lines, isTagLine l = false) :
    lines.foldl parseStep st = ⟨st.subject, st.bodyLines ++ lines, true⟩ := by
  induction lines generalizing st with
  | nil =>
    cases st
    simp_all
  | cons l ls ih =>
    have hstep := parseStep_notag_inBody st l (htags l (by simp)) hin
    simp only [List.foldl_cons, hstep]
    rw [ih ⟨st.subject, st.bodyLines ++ [l], true⟩ rfl
      (fun x hx => htags x (by simp [hx]))]
    simp

theorem parseStep_first_line (l0 : List Char) (htag : isTagLine l0 = false)
    (hne : pyStrip l0 ≠ []) (hlen : (pyStrip l0).length ≤ 80) :
    parseStep ⟨[], [], false⟩ l0 = ⟨pyStrip l0, [], true⟩ := by
  simp only [isTagLine, Bool.or_eq_false_iff] at htag
  have hlt : (pyStrip l0).length < 100 := by omega
  have hemp : (pyStrip l0).isEmpty = false := by
    simpa [List.isEmpty_iff] using hne
  simp [parseStep, htag.1, htag.2, hlt, hemp, hlen]

/-- Claim C4 counterexample: a 90-character single-line input has its
whole first line (longer than 80 characters) returned as the subject
through the final fallback, refuting "a first line longer than 80
characters is never returned as the subject". -/
theorem C4_cex_long_first_line :
    (parseEmailResponse ((List.replicate 90 'x').asString)).1 =
      (List.replicate 90 'x').asString ∧
    80 < ((parseEmailResponse ((List.replicate 90 'x').asString)).1).length :=
  ⟨by decide, by decide⟩

/-- Claim C4 amended: with no SUBJECT:/BODY: tag line, the main scan
takes the stripped first line as the subject exactly when it is at most
80 characters, with the remaining lines (joined and stripped) as the
body, falling back to the whole stripped text when that remainder is
blank; a longer first line can however still become the subject through
the final fallback, which accepts up to 100 characters, and only beyond
100 characters does the sentinel "Following up" appear.  Concretely,
parsing "Short subject line\nBody text here." yields
("Short subject line", "Body text here."). -/
theorem C4_amended_first_line_heuristic :
    (parseEmailResponse "Short subject line\nBody text here." =
      ("Short subject line", "Body text here.")) ∧
    (∀ (s : String) (l0 : List Char) (rest : List (List Char)),
      splitLines (pyStrip s.data) = l0 :: rest →
      (∀ l ∈ l0 :: rest, isTagLine l = false) →
      pyStrip l0 ≠ [] →
      (pyStrip l0).length ≤ 80 →
      parseEmailL s.data =
        (pyStrip l0,
         if (pyStrip (List.intercalate ['\n'] rest)).isEmpty then pyStrip s.data
         else pyStrip (List.intercalate ['\n'] rest))) ∧
    (parseEmailResponse ((List.replicate 90 'x').asString) =
      ((List.replicate 90 'x').asString, (List.replicate 90 'x').asString)) ∧
    (parseEmailResponse ((List.replicate 101 'x').asString) =
      ("Following up", (List.replicate 101 'x').asString)) := by
  refine ⟨by decide, ?_, by decide, by decide⟩
  intro s l0 rest hsplit htags hne hlen
  have h0 := parseStep_first_line l0 (htags l0 (by simp)) hne hlen
  have hfold := foldl_parseStep_inBody rest ⟨pyStrip l0, [], true⟩ rfl
    (fun x hx => htags x (by simp [hx]))
  have hsub : (pyStrip l0).isEmpty = false := by
    simpa [List.isEmpty_iff] using hne
  simp only [parseEmailL, hsplit, List.foldl_cons, h0, hfold]
  simp [hsub]

theorem C4_witness :
    (splitLines (pyStrip ("Short subject line\nBody text here." : String).data) =
      ["Short subject line".data, "Body text here.".data]) ∧
    (∀ l ∈ ["Short subject line".data, "Body text here.".data], isTagLine l = false) ∧
    pyStrip "Short subject line".data ≠ [] ∧
    (pyStrip "Short subject line".data).length ≤ 80 ∧
    parseEmailL ("Short subject line\nBody text here." : String).data =
      (pyStrip "Short subject line".data,
       if (pyStrip (List.intercalate ['\n'] ["Body text here.".data])).isEmpty
       then pyStrip ("Short subject line\nBody text here." : String).data
       else pyStrip (List.intercalate ['\n'] ["Body text here.".data])) :=
  ⟨by decide, by decide, by decide, by decide,
   C4_amended_first_line_heuristic.2.1 "Short subject line\nBody text here."
     "Short subject line".data ["Body text here.".data] (by decide) (by decide)
     (by decide) (by decide)⟩

theorem charOfNat_upper_ne_colon (m : Nat) (h1 : 65 ≤ m) (h2 : m ≤ 90) :
    Char.ofNat m ≠ ':' := by
  interval_cases m <;> decide

theorem asciiUpper_space_fix (c : Char) (h : pyIsSpace c = true) : asciiUpper c = c := by
  simp only [pyIsSpace, Bool.or_eq_true, decide_eq_true_eq] at h
  rcases h with ((((rfl | rfl) | rfl) | rfl) | rfl) | rfl <;> decide

theorem not_space_of_asciiUpper (c d : Char) (h : asciiUpper c = d)
    (hd : pyIsSpace d = false) : pyIsSpace c = false := by
  by_contra hc
  rw [Bool.not_eq_false] at hc
  rw [asciiUpper_space_fix c hc] at h
  rw [h] at hc
  rw [hd] at hc
  exact Bool.false_ne_true hc

theorem ne_of_asciiUpper_fix (fixc : Char) (hfix : asciiUpper fixc = fixc)
    (c d : Char) (h : asciiUpper c = d) (hd : d ≠ fixc) : ¬(c = fixc) := by
  intro hc
  subst hc
  rw [hfix] at h
  exact hd h.symm

theorem asciiUpper_eq_colon (c : Char) (h : asciiUpper c = ':') : c = ':' := by
  unfold asciiUpper at h
  split at h
  · rename_i hl
    exact absurd h (charOfNat_upper_ne_colon (c.toNat - 32) (by omega) (by omega))
  · exact h

theorem splitLines_append_newline (l r : List Char) (hl : ∀ c ∈ l, ¬(c = '\n')) :
    splitLines (l ++ '\n' :: r) = l :: splitLines r := by
  induction l with
  | nil => simp [splitLines]
  | cons c t ih =>
    have hc : ¬(c = '\n') := hl c (by simp)
    have iht := ih (fun x hx => hl x (by simp [hx]))
    simp only [List.cons_append, splitLines, if_neg hc]
    show (c :: (splitLines (t ++ '\n' :: r)).headD []) ::
        (splitLines (t ++ '\n' :: r)).tail = (c :: t) :: splitLines r
    rw [iht]
    simp

theorem pyStripLeft_cons_of_not_space (c : Char) (t : List Char)
    (h : pyIsSpace c = false) : pyStripLeft (c :: t) = c :: t := by
  simp [pyStripLeft, List.dropWhile_cons, h]

theorem pyStripRight_eq_self_getLast (l : List Char)
    (hN : ∀ c, l.getLast? = some c → pyIsSpace c = false) :
    pyStripRight l = l := by
  unfold pyStripRight
  cases hr : l.reverse with
  | nil =>
    have : l = [] := by simpa using congrArg List.reverse hr
    simp [this]
  | cons c t =>
    have hc : pyIsSpace c = false := by
      apply hN
      rw [← List.head?_reverse, hr]
      rfl
    rw [List.dropWhile_cons, hc]
    simp only [Bool.false_eq_true, if_false]
    rw [← hr, List.reverse_reverse]

theorem pyStrip_eq_self_head_last (l : List Char) (c0 cN : Char)
    (hh : l.head? = some c0) (hl : l.getLast? = some cN)
    (h0 : pyIsSpace c0 = false) (hN : pyIsSpace cN = false) :
    pyStrip l = l := by
  cases l with
  | nil => rfl
  | cons a t =>
    have ha : a = c0 := by
      simpa using hh
    unfold pyStrip
    rw [pyStripLeft_cons_of_not_space a t (ha ▸ h0)]
    apply pyStripRight_eq_self_getLast
    intro c hc
    rw [hl] at hc
    cases hc
    exact hN

theorem pyAfterColon_append (l r : List Char) (hl : ∀ c ∈ l, ¬(c = ':')) :
    pyAfterColon (l ++ ':' :: r) = r := by
  induction l with
  | nil => simp [pyAfterColon]
  | cons c t ih =>
    have hc := hl c (by simp)
    simp only [List.cons_append, pyAfterColon, if_neg hc]
    exact ih (fun x hx => hl x (by simp [hx]))

theorem isPrefixOf_append_self (l r : List Char) : l.isPrefixOf (l ++ r) = true := by
  induction l with
  | nil => simp [List.isPrefixOf]
  | cons c t ih => simp [List.isPrefixOf, ih]

theorem C5_core (lS lB : List Char)
    (hS : pyUpper lS = ['S', 'U', 'B', 'J', 'E', 'C', 'T', ':'])
    (hB : pyUpper lB = ['B', 'O', 'D', 'Y', ':']) :
    parseEmailL (lS ++ [' ', 'H', 'i', '\n'] ++ lB ++
        ['\n', 'L', 'i', 'n', 'e', '1', '\n', 'L', 'i', 'n', 'e', '2']) =
      (['H', 'i'], ['L', 'i', 'n', 'e', '1', '\n', 'L', 'i', 'n', 'e', '2']) := by
  have hS0 := hS
  have hB0 := hB
  simp only [pyUpper] at hS hB
  obtain ⟨c0, l1, rfl, hu0, hS⟩ := List.map_eq_cons_iff.mp hS
  obtain ⟨c1, l2, rfl, hu1, hS⟩ := List.map_eq_cons_iff.mp hS
  obtain ⟨c2, l3, rfl, hu2, hS⟩ := List.map_eq_cons_iff.mp hS
  obtain ⟨c3, l4, rfl, hu3, hS⟩ := List.map_eq_cons_iff.mp hS
  obtain ⟨c4, l5, rfl, hu4, hS⟩ := List.map_eq_cons_iff.mp hS
  obtain ⟨c5, l6, rfl, hu5, hS⟩ := List.map_eq_cons_iff.mp hS
  obtain ⟨c6, l7, rfl, hu6, hS⟩ := List.map_eq_cons_iff.mp hS
  obtain ⟨c7, l8, rfl, hu7, hS⟩ := List.map_eq_cons_iff.mp hS
  have hl8 : l8 = [] := by simpa using hS
  subst hl8
  obtain ⟨b0, m1, rfl, hv0, hB⟩ := List.map_eq_cons_iff.mp hB
  obtain ⟨b1, m2, rfl, hv1, hB⟩ := List.map_eq_cons_iff.mp hB
  obtain ⟨b2, m3, rfl, hv2, hB⟩ := List.map_eq_cons_iff.mp hB
  obtain ⟨b3, m4, rfl, hv3, hB⟩ := List.map_eq_cons_iff.mp hB
  obtain ⟨b4, m5, rfl, hv4, hB⟩ := List.map_eq_cons_iff.mp hB
  have hm5 : m5 = [] := by simpa using hB
  subst hm5
  have hc7 : c7 = ':' := asciiUpper_eq_colon c7 hu7
  subst hc7
  have hb4 : b4 = ':' := asciiUpper_eq_colon b4 hv4
  subst hb4
  have hns0 : pyIsSpace c0 = false := not_space_of_asciiUpper c0 'S' hu0 (by decide)
  have hnsb0 : pyIsSpace b0 = false := not_space_of_asciiUpper b0 'B' hv0 (by decide)
  have hnl0 := ne_of_asciiUpper_fix '\n' (by decide) c0 'S' hu0 (by decide)
  have hnl1 := ne_of_asciiUpper_fix '\n' (by decide) c1 'U' hu1 (by decide)
  have hnl2 := ne_of_asciiUpper_fix '\n' (by decide) c2 'B' hu2 (by decide)
  have hnl3 := ne_of_asciiUpper_fix '\n' (by decide) c3 'J' hu3 (by decide)
  have hnl4 := ne_of_asciiUpper_fix '\n' (by decide) c4 'E' hu4 (by decide)
  have hnl5 := ne_of_asciiUpper_fix '\n' (by decide) c5 'C' hu5 (by decide)
  have hnl6 := ne_of_asciiUpper_fix '\n' (by decide) c6 'T' hu6 (by decide)
  have hnlb0 := ne_of_asciiUpper_fix '\n' (by decide) b0 'B' hv0 (by decide)
  have hnlb1 := ne_of_asciiUpper_fix '\n' (by decide) b1 'O' hv1 (by decide)
  have hnlb2 := ne_of_asciiUpper_fix '\n' (by decide) b2 'D' hv2 (by decide)
  have hnlb3 := ne_of_asciiUpper_fix '\n' (by decide) b3 'Y' hv3 (by decide)
  have hco0 := ne_of_asciiUpper_fix ':' (by decide) c0 'S' hu0 (by decide)
  have hco1 := ne_of_asciiUpper_fix ':' (by decide) c1 'U' hu1 (by decide)
  have hco2 := ne_of_asciiUpper_fix ':' (by decide) c2 'B' hu2 (by decide)
  have hco3 := ne_of_asciiUpper_fix ':' (by decide) c3 'J' hu3 (by decide)
  have hco4 := ne_of_asciiUpper_fix ':' (by decide) c4 'E' hu4 (by decide)
  have hco5 := ne_of_asciiUpper_fix ':' (by decide) c5 'C' hu5 (by decide)
  have hco6 := ne_of_asciiUpper_fix ':' (by decide) c6 'T' hu6 (by decide)
  -- the whole input keeps its shape under strip: it starts with `c0`
  -- (not whitespace) and ends with the literal '2'
  have hstrip : pyStrip ((c0 :: c1 :: c2 :: c3 :: c4 :: c5 :: c6 :: ':' :: []) ++
      [' ', 'H', 'i', '\n'] ++ (b0 :: b1 :: b2 :: b3 :: ':' :: []) ++
      ['\n', 'L', 'i', 'n', 'e', '1', '\n', 'L', 'i', 'n', 'e', '2']) =
      (c0 :: c1 :: c2 :: c3 :: c4 :: c5 :: c6 :: ':' :: []) ++
      [' ', 'H', 'i', '\n'] ++ (b0 :: b1 :: b2 :: b3 :: ':' :: []) ++
      ['\n', 'L', 'i', 'n', 'e', '1', '\n', 'L', 'i', 'n', 'e', '2'] :=
    pyStrip_eq_self_head_last _ c0 '2' rfl rfl hns0 (by decide)
  have hshape : (c0 :: c1 :: c2 :: c3 :: c4 :: c5 :: c6 :: ':' :: []) ++
      [' ', 'H', 'i', '\n'] ++ (b0 :: b1 :: b2 :: b3 :: ':' :: []) ++
      ['\n', 'L', 'i', 'n', 'e', '1', '\n', 'L', 'i', 'n', 'e', '2'] =
      ((c0 :: c1 :: c2 :: c3 :: c4 :: c5 :: c6 :: ':' :: []) ++ [' ', 'H', 'i']) ++
      '\n' :: ((b0 :: b1 :: b2 :: b3 :: ':' :: []) ++
        '\n' :: ['L', 'i', 'n', 'e', '1', '\n', 'L', 'i', 'n', 'e', '2']) := by
    simp
  have hlines : splitLines ((c0 :: c1 :: c2 :: c3 :: c4 :: c5 :: c6 :: ':' :: []) ++
      [' ', 'H', 'i', '\n'] ++ (b0 :: b1 :: b2 :: b3 :: ':' :: []) ++
      ['\n', 'L', 'i', 'n', 'e', '1', '\n', 'L', 'i', 'n', 'e', '2']) =
      [(c0 :: c1 :: c2 :: c3 :: c4 :: c5 :: c6 :: ':' :: []) ++ [' ', 'H', 'i'],
       b0 :: b1 :: b2 :: b3 :: ':' :: [],
       ['L', 'i', 'n', 'e', '1'], ['L', 'i', 'n', 'e', '2']] := by
    rw [hshape]
    rw [splitLines_append_newline]
    · rw [splitLines_append_newline]
      · rw [show splitLines ['L', 'i', 'n', 'e', '1', '\n', 'L', 'i', 'n', 'e', '2'] =
          [['L', 'i', 'n', 'e', '1'], ['L', 'i', 'n', 'e', '2']] from by decide]
      · intro c hc
        simp only [List.mem_cons, List.not_mem_nil, or_false] at hc
        rcases hc with rfl | rfl | rfl | rfl | rfl
        exacts [hnlb0, hnlb1, hnlb2, hnlb3, by decide]
    · intro c hc
      simp only [List.mem_append, List.mem_cons, List.not_mem_nil, or_false] at hc
      rcases hc with (rfl | rfl | rfl | rfl | rfl | rfl | rfl | rfl) | (rfl | rfl | rfl)
      exacts [hnl0, hnl1, hnl2, hnl3, hnl4, hnl5, hnl6, by decide, by decide,
        by decide, by decide]
  have hline1strip : pyStrip ((c0 :: c1 :: c2 :: c3 :: c4 :: c5 :: c6 :: ':' :: []) ++
      [' ', 'H', 'i']) = (c0 :: c1 :: c2 :: c3 :: c4 :: c5 :: c6 :: ':' :: []) ++
      [' ', 'H', 'i'] :=
    pyStrip_eq_self_head_last _ c0 'i' rfl rfl hns0 (by decide)
  have hlineBstrip : pyStrip (b0 :: b1 :: b2 :: b3 :: ':' :: []) =
      b0 :: b1 :: b2 :: b3 :: ':' :: [] :=
    pyStrip_eq_self_head_last _ b0 ':' rfl rfl hnsb0 (by decide)
  have hupper1 : pyUpper ((c0 :: c1 :: c2 :: c3 :: c4 :: c5 :: c6 :: ':' :: []) ++
      [' ', 'H', 'i']) = ['S', 'U', 'B', 'J', 'E', 'C', 'T', ':'] ++ [' ', 'H', 'I'] := by
    have hS1 : List.map asciiUpper (c0 :: c1 :: c2 :: c3 :: c4 :: c5 :: c6 :: ':' :: []) =
        ['S', 'U', 'B', 'J', 'E', 'C', 'T', ':'] := hS0
    simp only [pyUpper, List.map_append, hS1]
    decide
  have hafter : pyAfterColon ((c0 :: c1 :: c2 :: c3 :: c4 :: c5 :: c6 :: ':' :: []) ++
      [' ', 'H', 'i']) = [' ', 'H', 'i'] := by
    rw [show (c0 :: c1 :: c2 :: c3 :: c4 :: c5 :: c6 :: ':' :: []) ++ [' ', 'H', 'i'] =
      (c0 :: c1 :: c2 :: c3 :: c4 :: c5 :: c6 :: []) ++ ':' :: [' ', 'H', 'i'] by simp]
    apply pyAfterColon_append
    intro c hc
    simp only [List.mem_cons, List.not_mem_nil, or_false] at hc
    rcases hc with rfl | rfl | rfl | rfl | rfl | rfl | rfl
    exacts [hco0, hco1, hco2, hco3, hco4, hco5, hco6]
  have hstep1 : parseStep ⟨[], [], false⟩
      ((c0 :: c1 :: c2 :: c3 :: c4 :: c5 :: c6 :: ':' :: []) ++ [' ', 'H', 'i']) =
      ⟨['H', 'i'], [], false⟩ := by
    simp only [parseStep, hline1strip, hupper1, hafter]
    have h1 : ("SUBJECT:".data.isPrefixOf
        ((['S', 'U', 'B', 'J', 'E', 'C', 'T', ':'] : List Char) ++ [' ', 'H', 'I'])) =
        true := by decide
    rw [if_pos h1]
    decide
  have hstep2 : parseStep ⟨['H', 'i'], [], false⟩ (b0 :: b1 :: b2 :: b3 :: ':' :: []) =
      ⟨['H', 'i'], [], true⟩ := by
    have hupB : pyUpper (b0 :: b1 :: b2 :: b3 :: ':' :: []) = ['B', 'O', 'D', 'Y', ':'] := hB0
    simp only [parseStep, hlineBstrip, hupB]
    have h1n : ¬("SUBJECT:".data.isPrefixOf (['B', 'O', 'D', 'Y', ':'] : List Char) = true) := by
      decide
    have h2 : ("BODY:".data.isPrefixOf (['B', 'O', 'D', 'Y', ':'] : List Char)) = true := by
      decide
    rw [if_neg h1n, if_pos h2]
  simp only [parseEmailL, hstrip, hlines, List.foldl_cons, hstep1, hstep2]
  rfl

/-- Claim C5: the explicit SUBJECT:/BODY: tag pair is matched
case-insensitively and takes priority over the first-line heuristic:
parsing "SUBJECT: Hi\nBODY:\nLine1\nLine2" yields subject "Hi" and body
"Line1\nLine2", and the same result is produced for every letter-casing
of the two tags. -/
theorem C5_tag_pair_case_insensitive :
    (parseEmailResponse "SUBJECT: Hi\nBODY:\nLine1\nLine2" = ("Hi", "Line1\nLine2")) ∧
    (∀ tagS tagB : String,
      pyUpper tagS.data = "SUBJECT:".data →
      pyUpper tagB.data = "BODY:".data →
      parseEmailResponse (tagS ++ " Hi\n" ++ tagB ++ "\nLine1\nLine2") =
        ("Hi", "Line1\nLine2")) := by
  refine ⟨by decide, ?_⟩
  intro tagS tagB hS hB
  have hc := C5_core tagS.data tagB.data hS hB
  simp only [parseEmailResponse]
  have hd : (tagS ++ " Hi\n" ++ tagB ++ "\nLine1\nLine2").data =
      tagS.data ++ [' ', 'H', 'i', '\n'] ++ tagB.data ++
        ['\n', 'L', 'i', 'n', 'e', '1', '\n', 'L', 'i', 'n', 'e', '2'] := by
    simp [String.data_append]
  rw [hd, hc]
  rfl

theorem C5_witness :
    pyUpper ("Subject:" : String).data = "SUBJECT:".data ∧
    pyUpper ("bODy:" : String).data = "BODY:".data ∧
    parseEmailResponse ("Subject:" ++ " Hi\n" ++ "bODy:" ++ "\nLine1\nLine2") =
      ("Hi", "Line1\nLine2") :=
  ⟨by decide, by decide,
   C5_tag_pair_case_insensitive.2 "Subject:" "bODy:" (by decide) (by decide)⟩

/-- Claim C3: evaluating the draft parser at the failing input: on the
empty string it returns subject `""` and body `""` (the embedding is a
total function, which is the never-raises part); the sentinel
`"Following up"` that the specification prescribes for this input is not
produced. -/
theorem C3_parse_empty_draft : parseEmailResponse "" = ("", "") := by decide

/-- Claim C6: any intent containing "cold" or "first"
(case-insensitively) makes `_infer_email_type` return
`"initial_outreach"` for every `crm_context`, because the
initial-outreach keyword check is the first branch of the priority
chain. -/
theorem C6_cold_first_initial_outreach (intent : String)
    (crm : Option (List (String × String)))
    (h : pyContains (pyLower intent.data) "cold".data = true ∨
         pyContains (pyLower intent.data) "first".data = true) :
    infer_email_type intent crm = "initial_outreach" := by
  have hk : anyKeyword (pyLower intent.data)
      ["initial", "first", "outreach", "cold", "introduction"] = true := by
    simp only [anyKeyword, List.any_cons, List.any_nil, Bool.or_eq_true]
    rcases h with h | h
    · exact Or.inr (Or.inr (Or.inr (Or.inl h)))
    · exact Or.inr (Or.inl h)
  simp [infer_email_type, hk]

theorem C6_witness :
    (pyContains (pyLower ("Write a cold outreach intro" : String).data) "cold".data = true ∨
     pyContains (pyLower ("Write a cold outreach intro" : String).data) "first".data = true) ∧
    infer_email_type "Write a cold outreach intro"
      (some [("deal_stage", "demo scheduled")]) = "initial_outreach" :=
  ⟨Or.inl (by decide),
   C6_cold_first_initial_outreach "Write a cold outreach intro"
     (some [("deal_stage", "demo scheduled")]) (Or.inl (by decide))⟩

/-- Claim C2: a live-mode construction whose initialization attempt
fails returns normally in state `use_mock = true` with no tools, and
every operation on a mock-mode state answers from the mock
implementation and leaves the state unchanged, so the instance never
transitions back to live mode and never retries initialization. -/
theorem C2_init_failure_durable_mock (env : String) (e : PyExc)
    (w : HubSpotMCP.LiveWorld) (henv : pyLowerS env ≠ "true") :
    HubSpotMCP.init false env (.error e) = ⟨true, []⟩ ∧
    (∀ st : HubSpotMCP.State, st.use_mock = true →
      (∀ name, HubSpotMCP.search_company w st name =
        (HubSpotMCP.mock_search_company name, st)) ∧
      (∀ pyhash data, HubSpotMCP.create_company w pyhash st data =
        (some (HubSpotMCP.mock_create_company pyhash data), st)) ∧
      (∀ pyhash data, HubSpotMCP.create_contact w pyhash st data =
        (some (HubSpotMCP.mock_create_contact pyhash data), st)) ∧
      (∀ rid txt rt, HubSpotMCP.add_note w st rid txt rt =
        (HubSpotMCP.mock_add_note rid txt rt, st))) := by
  constructor
  · have hb : (pyLowerS env == "true") = false := by
      rw [beq_eq_false_iff_ne]
      exact henv
    simp [HubSpotMCP.init, hb]
  · intro st hst
    refine ⟨fun name => ?_, fun pyhash data => ?_, fun pyhash data => ?_,
      fun rid txt rt => ?_⟩ <;>
      simp [HubSpotMCP.search_company, HubSpotMCP.create_company,
        HubSpotMCP.create_contact, HubSpotMCP.add_note, hst]

theorem C2_witness :
    pyLowerS "" ≠ "true" ∧
    HubSpotMCP.init false "" (.error ⟨"missing credentials", "ComposioClientError"⟩) =
      ⟨true, []⟩ :=
  ⟨by decide,
   (C2_init_failure_durable_mock "" ⟨"missing credentials", "ComposioClientError"⟩
     unreachableWorld (by decide)).1⟩

/-- Claim C7 counterexample: `add_note` with the out-of-enum record type
"deal" on a mock adapter reports success, so no validation of
`record_type` against `{company, contact}` takes place. -/
theorem C7_cex_no_validation :
    ("deal" ≠ "company" ∧ "deal" ≠ "contact") ∧
    HubSpotMCP.add_note unreachableWorld mockState "rec-1" "hello" "deal" =
      (true, mockState) :=
  ⟨⟨by decide, by decide⟩, by decide⟩

/-- Claim C7 amended: `add_note` performs no `record_type` validation:
in mock mode the call reports success for every record type, including
values outside `{company, contact}`, with the state unchanged. -/
theorem C7_amended_add_note_unvalidated (w : HubSpotMCP.LiveWorld)
    (st : HubSpotMCP.State) (record_id note_text record_type : String)
    (hst : st.use_mock = true) :
    HubSpotMCP.add_note w st record_id note_text record_type = (true, st) := by
  simp [HubSpotMCP.add_note, HubSpotMCP.mock_add_note, hst]

theorem C7_witness :
    mockState.use_mock = true ∧
    HubSpotMCP.add_note unreachableWorld mockState "rec-2" "note body" "ticket" =
      (true, mockState) :=
  ⟨by decide,
   C7_amended_add_note_unvalidated unreachableWorld mockState
     "rec-2" "note body" "ticket" (by decide)⟩

/-- Claim C8 counterexample: the uniform failure record names the
exception type under the key "error_type"; there is no "error_kind"
field, so the field set stated by the claim does not match the code. -/
theorem C8_cex_error_kind_absent :
    dictGet (agent_boundary "Gmail Agent" (.error ⟨"boom", "ValueError"⟩))
        "error_kind" = none ∧
    dictGet (agent_boundary "Gmail Agent" (.error ⟨"boom", "ValueError"⟩))
        "error_type" = some (.s "ValueError") :=
  ⟨by decide, by decide⟩

/-- Claim C8 amended: every exception reaching the agent boundary is
caught and converted into exactly the record
`{success: false, error: message, error_type: type name, agent: name}`
rather than propagating. -/
theorem C8_amended_boundary_failure_record (agent_name : String) (e : PyExc) :
    agent_boundary agent_name (.error e) =
      [("success", .b false), ("error", .s e.message),
       ("error_type", .s e.typeName), ("agent", .s agent_name)] := rfl

/-- Claim C9: creating "Acme Corp" (absent from the mock fixtures)
through the agent yields created = true and exists = false, but the
record id embeds `hash(name) % 1000` and Python's string hash is salted
per process: two runs whose processes hash the name differently receive
different ids, so the id is not deterministic across mock sessions. -/
theorem C9_mock_id_not_cross_process_deterministic :
    (dictGet (agent_create_company unreachableWorld (fun _ => 0) mockState
        [("name", "Acme Corp"), ("domain", "acme.com")] true).1 "created" =
      some (.b true)) ∧
    (dictGet (agent_create_company unreachableWorld (fun _ => 0) mockState
        [("name", "Acme Corp"), ("domain", "acme.com")] true).1 "exists" =
      some (.b false)) ∧
    (dictGet (HubSpotMCP.mock_create_company (fun _ => 0)
        [("name", "Acme Corp"), ("domain", "acme.com")]) "id" =
      some "mock-acme-corp-0") ∧
    (dictGet (HubSpotMCP.mock_create_company (fun _ => 1)
        [("name", "Acme Corp"), ("domain", "acme.com")]) "id" =
      some "mock-acme-corp-1") :=
  ⟨by decide, by decide, by decide, by decide⟩

/-- Claim C10 counterexample: the literal string " Stripe " is outside
the fixture set `{"Stripe", "Notion"}`, yet mock search finds it,
because the lookup strips its argument first. -/
theorem C10_cex_strip_lookup :
    (" Stripe " ≠ "Stripe" ∧ " Stripe " ≠ "Notion") ∧
    (HubSpotMCP.search_company unreachableWorld mockState " Stripe ").1 =
      some HubSpotMCP.stripe_record :=
  ⟨⟨by decide, by decide⟩, by decide⟩

/-- Claim C10 amended: in mock mode, for every company name that does
not strip to a fixture key, search is not-found both before and
immediately after a create on the same instance: create never changes
the searchable set. -/
theorem C10_amended_create_frame (w : HubSpotMCP.LiveWorld)
    (pyhash : String → Int) (st : HubSpotMCP.State) (name : String)
    (data : CrmRec) (hst : st.use_mock = true)
    (h1 : pyStripS name ≠ "Stripe") (h2 : pyStripS name ≠ "Notion") :
    (HubSpotMCP.search_company w st name).1 = none ∧
    (HubSpotMCP.search_company w
      (HubSpotMCP.create_company w pyhash st data).2 name).1 = none := by
  have e1 : (pyStripS name == "Stripe") = false := by
    rw [beq_eq_false_iff_ne]
    exact h1
  have e2 : (pyStripS name == "Notion") = false := by
    rw [beq_eq_false_iff_ne]
    exact h2
  constructor <;>
    simp [HubSpotMCP.search_company, HubSpotMCP.create_company,
      HubSpotMCP.mock_search_company, hst, e1, e2]

theorem C10_witness :
    mockState.use_mock = true ∧ pyStripS "Acme Corp" ≠ "Stripe" ∧
    pyStripS "Acme Corp" ≠ "Notion" ∧
    ((HubSpotMCP.search_company unreachableWorld mockState "Acme Corp").1 = none ∧
     (HubSpotMCP.search_company unreachableWorld
       (HubSpotMCP.create_company unreachableWorld (fun _ => 0) mockState
         [("name", "Acme Corp")]).2 "Acme Corp").1 = none) :=
  ⟨by decide, by decide, by decide,
   C10_amended_create_frame unreachableWorld (fun _ => 0) mockState "Acme Corp"
     [("name", "Acme Corp")] (by decide) (by decide) (by decide)⟩

end AgentSpec
